import Mathlib

/-!
Verification of the TestForge test orchestrator
(src/orchestration/testOrchestrator.js, src/utils/testDataManager.js,
src/utils/browserManager.js) against its natural-language specification.

Shallow embedding conventions:
* JS objects with string keys are association lists `List (String × α)`;
  object spread `{...a, ...b}` is `objOverlay`.
* JS exceptions carry only their message and are modelled as
  `Except String α`; a function that cannot throw is total.
* Timestamps (`new Date().toISOString()`) are an opaque string `ts`
  threaded in from the caller; their value is irrelevant to every claim.
* The external capabilities of section 6 of the spec (data fetch,
  browser control, page interaction) are a record of `Except`-valued
  fields quantified over in every theorem.
-/

namespace TestForge

/-- A StepOutcome record pushed into `testResults`.
`details` holds the page title of a successful `executeTest`
(`details: { title }` in the source); `errMsg` is the `error` field of a
failed scenario-runner outcome; `errorsLogged` is the `errors` field of
the `handleError` outcome. Absent JS fields are `none` / `[]`. -/
structure ErrorRecord where
  step : String
  error : String
  timestamp : String
deriving Repr, DecidableEq

structure StepOutcome where
  step : String
  status : String
  details : Option String := none
  errMsg : Option String := none
  errorsLogged : List ErrorRecord := []
  timestamp : String := ""
deriving Repr, DecidableEq

/-- A recorded browser context bundle `{ browser, context, page }`.
Handles are opaque numeric identifiers handed out by the
browser-control capability. `browser` is optional because `_teardown`
guards with `if (context.browser)`. -/
structure BrowserCtx where
  browser : Option Nat
  context : Nat
  page : Nat
deriving Repr, DecidableEq

/-- JS object spread `{...existing, ...updates}` on objects encoded as
association lists with distinct keys: keys of `updates` win, existing
keys keep their position, fresh keys of `updates` are appended. -/
def objOverlay (existing updates : List (String × α)) : List (String × α) :=
  (existing.map fun p =>
    match updates.lookup p.1 with
    | some v => (p.1, v)
    | none => p) ++
  updates.filter fun q => (existing.lookup q.1).isNone

/-- The workflow state threaded through the graph
(the four channels of `stateSchema`, part_000 lines 25-44).
Test-data values are opaque strings. -/
structure WState where
  testResults : List StepOutcome
  testData : List (String × String)
  browserContexts : List (String × BrowserCtx)
  errors : List ErrorRecord
deriving Repr, DecidableEq

/-- A node's partial state update. A JS delta object that omits a key
leaves the channel untouched, hence `Option` per channel. -/
structure WDelta where
  testResults : Option (List StepOutcome) := none
  testData : Option (List (String × String)) := none
  browserContexts : Option (List (String × BrowserCtx)) := none
  errors : Option (List ErrorRecord) := none
deriving Repr, DecidableEq

/-- Reducer of the sequence channels `testResults` and `errors`
(part_000 lines 28 and 42): `(existing, updates) => [...existing, ...updates]`. -/
def seqReducer (existing updates : List α) : List α :=
  existing ++ updates

/-- Reducer of the mapping channels `testData` and `browserContexts`
(part_000 lines 33 and 38): `(existing, updates) => ({ ...existing, ...updates })`. -/
def mapReducer (existing updates : List (String × α)) : List (String × α) :=
  objOverlay existing updates

/-- Channel-wise application of a node delta to the accumulated state,
using the per-field reducers of `stateSchema`; an absent field is the
empty delta (`reducer existing [] = existing`). -/
def applyDelta (s : WState) (d : WDelta) : WState :=
  { testResults := seqReducer s.testResults (d.testResults.getD [])
    testData := mapReducer s.testData (d.testData.getD [])
    browserContexts := mapReducer s.browserContexts (d.browserContexts.getD [])
    errors := seqReducer s.errors (d.errors.getD []) }

/-- The external capabilities consumed by the orchestrator (spec section 6):
the data-fetch result for the fixed key `test-config`, the three
browser-control acquisitions, the page interactions used by
`executeTest`, and `close()` on a browser handle. Each may fail with a
message. -/
structure Capabilities where
  getTestData : Except String (List (String × String))
  launchBrowser : Except String Nat
  createContext : Except String Nat
  createPage : Except String Nat
  pageGoto : String → Except String Unit
  pageScreenshot : Except String Unit
  pageTitle : Except String String
  browserClose : Nat → Except String Unit

/-- JS `x || dflt` for an optionally present string value:
an absent key and the empty string are falsy. -/
def jsOrStr (v : Option String) (dflt : String) : String :=
  match v with
  | some s => if s = "" then dflt else s
  | none => dflt

/-- Whether the first character list is a prefix of the second. -/
def charsPrefix : List Char → List Char → Bool
  | [], _ => true
  | _ :: _, [] => false
  | c :: cs, d :: ds => c == d && charsPrefix cs ds

/-- Whether `pat` occurs as a contiguous run anywhere in the list. -/
def charsContains (pat : List Char) : List Char → Bool
  | [] => charsPrefix pat []
  | d :: ds => charsPrefix pat (d :: ds) || charsContains pat ds

/-- JS `title.includes(pat)`: substring containment. -/
def jsIncludes (s pat : String) : Bool :=
  charsContains pat.data s.data

/-- Node `_setupTestData` (part_000 lines 81-101): fetch the test data;
on success return a `{testData, testResults}` delta, on failure catch
locally and return an `{errors}` delta. Never throws. -/
def setupTestDataNode (cap : Capabilities) (ts : String) (_state : WState) : WDelta :=
  match cap.getTestData with
  | .ok testData =>
      { testData := some testData
        testResults := some [{ step := "setupTestData", status := "success", timestamp := ts }] }
  | .error e =>
      { errors := some [{ step := "setupTestData", error := e, timestamp := ts }] }

/-- Node `_setupBrowser` (part_000 lines 107-143): acquire browser,
context and page; on success record them under `browserContexts.default`
and return a delta that re-includes the existing `testResults`
(`[...state.testResults, outcome]`); on failure catch locally and return
the spread of the whole state with one more error record
(`{...state, errors: [...(state.errors || []), rec]}`). Never throws.
(`browserManager.initialize()` falls back to default configurations on
any fetch failure and cannot itself throw, so it does not appear as a
failure source.) -/
def acquireBrowser (cap : Capabilities) : Except String (Nat × Nat × Nat) := do
  let b ← cap.launchBrowser
  let c ← cap.createContext
  let p ← cap.createPage
  pure (b, c, p)

/-- Node `_setupBrowser`, continued: the delta construction around
`acquireBrowser`. -/
def setupBrowserNode (cap : Capabilities) (ts : String) (state : WState) : WDelta :=
  match acquireBrowser cap with
  | .ok (b, c, p) =>
      { browserContexts := some [("default", { browser := some b, context := c, page := p })]
        testResults := some (state.testResults ++
          [{ step := "setupBrowser", status := "success", timestamp := ts }]) }
  | .error e =>
      { testResults := some state.testResults
        testData := some state.testData
        browserContexts := some state.browserContexts
        errors := some (state.errors ++
          [{ step := "setupBrowser", error := e, timestamp := ts }]) }

/-- Node `_executeTest` (part_000 lines 149-189). The destructuring
`const { page } = browserContexts.default;` happens before the `try`
block, so when no `default` context is recorded the node throws a
TypeError instead of capturing it (`.error`). Inside the protected
region, navigation, screenshot and title failures are caught and become
an `{...state, errors}` delta; on success the pass/fail status comes
from `title.includes('Example')`. -/
def pageRun (cap : Capabilities) (url : String) : Except String String := do
  let _ ← cap.pageGoto url
  let _ ← cap.pageScreenshot
  cap.pageTitle

/-- Node `_executeTest`, continued: the delta construction around
`pageRun` (navigation, screenshot, title). -/
def executeTestNode (cap : Capabilities) (ts : String) (state : WState) : Except String WDelta :=
  match state.browserContexts.lookup "default" with
  | none =>
      .error "TypeError: Cannot destructure property of undefined"
  | some _ctx =>
      let url := jsOrStr (state.testData.lookup "baseUrl") "https://example.com"
      match pageRun cap url with
      | .ok title =>
          .ok { testResults := some (state.testResults ++
            [{ step := "executeTest"
               status := if jsIncludes title "Example" then "success" else "failed"
               details := some title, timestamp := ts }]) }
      | .error e =>
          .ok { testResults := some state.testResults
                testData := some state.testData
                browserContexts := some state.browserContexts
                errors := some (state.errors ++
                  [{ step := "executeTest", error := e, timestamp := ts }]) }

/-- Node `_handleError` (part_000 lines 195-209): append one `error`
outcome summarising the accumulated errors, spreading the whole state
into the delta. Never fails. -/
def handleErrorNode (ts : String) (state : WState) : WDelta :=
  { testResults := some (state.testResults ++
      [{ step := "handleError", status := "error"
         errorsLogged := state.errors, timestamp := ts }])
    testData := some state.testData
    browserContexts := some state.browserContexts
    errors := some state.errors }

/-- The per-context close loop of `_teardown` (part_000 lines 219-229):
iterate the recorded contexts, close each context's browser handle when
present, catching and logging (second component) any close failure so
the loop always continues. Returns the handles on which `close()` was
invoked, in order, and the swallowed failure messages. -/
def closeContexts (close : Nat → Except String Unit) :
    List (String × BrowserCtx) → List Nat × List String
  | [] => ([], [])
  | (_, c) :: rest =>
      match c.browser with
      | some b =>
          let tail := closeContexts close rest
          match close b with
          | .ok _ => (b :: tail.1, tail.2)
          | .error e => (b :: tail.1, e :: tail.2)
      | none => closeContexts close rest

/-- Node `_teardown` (part_000 lines 215-242): close every recorded
browser handle (failures swallowed), then return the spread of the whole
state with one more `completed` outcome appended. Also returns the
close-call trace for verification. -/
def teardownNode (cap : Capabilities) (ts : String) (state : WState) : WDelta × List Nat :=
  let closed := closeContexts cap.browserClose state.browserContexts
  ({ testResults := some (state.testResults ++
      [{ step := "teardown", status := "completed", timestamp := ts }])
     testData := some state.testData
     browserContexts := some state.browserContexts
     errors := some state.errors }, closed.1)

/-- Modelled from the spec: the graph-execution layer of the third-party
`@langchain/langgraph` engine is not part of this repository, so its
routing is taken from the spec (section 4.2): entry `setupTestData`,
success path `setupTestData -> setupBrowser -> executeTest -> teardown`,
a failure surfacing from any of the first three nodes routes to
`handleError`, which unconditionally routes to `teardown`; a failure
surfaces exactly when the node's delta contains an `errors` field
("failure is communicated only via the `errors` delta, which the graph
execution layer interprets as a trigger for the error path"). Node
deltas themselves come from the source; a node that throws propagates
out of the engine as `.error`. Returns the final state and the trace of
nodes executed. -/
def runGraph (cap : Capabilities) (ts : String) (init : WState) :
    Except String (WState × List String) := do
  let d1 := setupTestDataNode cap ts init
  let s1 := applyDelta init d1
  if d1.errors.isSome then
    let s2 := applyDelta s1 (handleErrorNode ts s1)
    let s3 := applyDelta s2 (teardownNode cap ts s2).1
    pure (s3, ["setupTestData", "handleError", "teardown"])
  else
    let d2 := setupBrowserNode cap ts s1
    let s2 := applyDelta s1 d2
    if d2.errors.isSome then
      let s3 := applyDelta s2 (handleErrorNode ts s2)
      let s4 := applyDelta s3 (teardownNode cap ts s3).1
      pure (s4, ["setupTestData", "setupBrowser", "handleError", "teardown"])
    else
      let d3 ← executeTestNode cap ts s2
      let s3 := applyDelta s2 d3
      if d3.errors.isSome then
        let s4 := applyDelta s3 (handleErrorNode ts s3)
        let s5 := applyDelta s4 (teardownNode cap ts s4).1
        pure (s5, ["setupTestData", "setupBrowser", "executeTest", "handleError", "teardown"])
      else
        let s4 := applyDelta s3 (teardownNode cap ts s3).1
        pure (s4, ["setupTestData", "setupBrowser", "executeTest", "teardown"])

/-- The orchestrator's constructor state `this.state` (part_000 lines
9-14): all four channels empty. It is never reassigned after
construction, so this is also the state the `runTest` catch handler
tears down. -/
def constructorState : WState :=
  { testResults := [], testData := [], browserContexts := [], errors := [] }

/-- The `catch` branch of `runTest` (part_000 lines 270-287) factored
over the engine's outcome `invokeResult`: on success return the result;
on a thrown engine error, force `_teardown` on
`{...this.state, errors: [...(this.state.errors || []), runTest record]}`
and re-throw the same error. Second component: the browser handles the
forced teardown actually closed. -/
def runTestWith (cap : Capabilities) (ts : String)
    (invokeResult : Except String WState) : Except String WState × List Nat :=
  match invokeResult with
  | .ok result => (.ok result, [])
  | .error e =>
      let tearState : WState :=
        { constructorState with errors := constructorState.errors ++
            [{ step := "runTest", error := e, timestamp := ts }] }
      let torn := teardownNode cap ts tearState
      (.error e, torn.2)

/-- `runTest(options)` (part_000 lines 249-288): seed `testData` from
the options over the constructor state, drive the compiled workflow, and
on an engine exception force a teardown pass and re-raise. -/
def runTest (cap : Capabilities) (ts : String) (options : List (String × String)) :
    Except String WState × List Nat :=
  let initialState : WState := { constructorState with testData := objOverlay [] options }
  runTestWith cap ts ((runGraph cap ts initialState).map Prod.fst)

/-! The scenario runner (`createTestScenario`, part_000 lines 295-337).
States and step results are arbitrary JS objects; the keys `testResults`
and `errors` are the ones the runner itself reads and writes, every
other key is carried opaquely in `other` (values opaque strings). A key
that is absent from the object is `none`, matching the
`currentState.testResults || []` guards. -/

/-- A scenario-runner state or step result: a plain JS object. -/
structure SObj where
  testResults : Option (List StepOutcome) := none
  errors : Option (List ErrorRecord) := none
  other : List (String × String) := []
deriving Repr, DecidableEq

/-- Top-level JS spread `{...a, ...b}` of two such objects: a key
present in `b` replaces the whole value of that key in `a`. -/
def spreadMerge (a b : SObj) : SObj :=
  { testResults := match b.testResults with
      | some v => some v
      | none => a.testResults
    errors := match b.errors with
      | some v => some v
      | none => a.errors
    other := objOverlay a.other b.other }

/-- A step function handed to `createTestScenario`. Its second parameter
is the external-handles argument a step such as those in the example
spec (`async (state, { page }) => ...`) declares; the runner decides
what, if anything, to pass there. -/
def ScenStep : Type :=
  SObj → Option Nat → Except String SObj

/-- The loop body of the callable returned by `createTestScenario`
(part_000 lines 300-330): iterate the remaining steps, invoking each as
`step(currentState)` — one argument, so the step's handles parameter
receives nothing (`none`) regardless of what the caller supplied. On
success spread-merge the result into the state and push a success
outcome onto `results`; on the first failure push a failure outcome,
append `results` and one error record to the state's `testResults` and
`errors`, and return immediately. After an exhausted loop append
`results` to `testResults` (part_000 lines 332-335). The second
component instruments the invoked step indices. -/
def runStepsFrom (ts : String) (idx : Nat) (cur : SObj) (results : List StepOutcome) :
    List ScenStep → SObj × List Nat
  | [] =>
      ({ cur with testResults := some (cur.testResults.getD [] ++ results) }, [])
  | step :: rest =>
      match step cur none with
      | .ok result =>
          let next := runStepsFrom ts (idx + 1) (spreadMerge cur result)
            (results ++ [{ step := "step_" ++ toString idx, status := "success", timestamp := ts }])
            rest
          (next.1, idx :: next.2)
      | .error msg =>
          ({ cur with
              testResults := some (cur.testResults.getD [] ++ results ++
                [{ step := "step_" ++ toString idx, status := "failed"
                   errMsg := some msg, timestamp := ts }])
              errors := some (cur.errors.getD [] ++
                [{ step := "step_" ++ toString idx, error := msg, timestamp := ts }]) },
           [idx])

/-- `createTestScenario(steps)` (part_000 lines 295-337): returns a
callable over an initial state. The callable's own signature is
`async (state) => ...`, so a second argument supplied at the call site
(`callerHandles`, as in the example spec's `scenario(initialState,
{ page })`) is accepted and ignored. -/
def createTestScenario (ts : String) (steps : List ScenStep)
    (state : SObj) (_callerHandles : Option Nat) : SObj × List Nat :=
  runStepsFrom ts 0 state [] steps

/-! `TestDataManager.getTestData` (src/utils/testDataManager.js lines
16-35). The cache is an association list keyed by the data key; the
underlying `mcpClient.getTestData` is an external capability. -/

/-- JS `Map.set`: replace in place when the key exists, else append. -/
def mapSet (m : List (String × α)) (k : String) (v : α) : List (String × α) :=
  if (m.lookup k).isSome then
    m.map fun p => if p.1 = k then (k, v) else p
  else
    m ++ [(k, v)]

/-- Result of one `getTestData` call: the returned data or the thrown
message, the cache afterwards, and whether the underlying fetch was
invoked. -/
structure FetchResult where
  result : Except String (List (String × String))
  cacheAfter : List (String × List (String × String))
  fetchCalled : Bool
deriving Repr

/-- `TestDataManager.getTestData(key, { cache = true, refresh = false })`:
return the cached entry when caching is on, no refresh is forced and the
key is cached; otherwise fetch, store into the cache only on success
and only when caching is on, and on a fetch failure throw
`Test data not found for key: <key>` leaving the cache unchanged. -/
def getTestData (mcpFetch : String → Except String (List (String × String)))
    (cacheMap : List (String × List (String × String)))
    (key : String) (cache : Bool := true) (refresh : Bool := false) : FetchResult :=
  match cache && !refresh, cacheMap.lookup key with
  | true, some cached =>
      { result := .ok cached, cacheAfter := cacheMap, fetchCalled := false }
  | _, _ =>
      match mcpFetch key with
      | .ok data =>
          { result := .ok data
            cacheAfter := if cache then mapSet cacheMap key data else cacheMap
            fetchCalled := true }
      | .error _ =>
          { result := .error ("Test data not found for key: " ++ key)
            cacheAfter := cacheMap
            fetchCalled := true }

/-! Helper definitions used by the theorems below: named record shapes
for the scenario runner's synthetic outcomes, and concrete capability
and step instances for witnesses and counterexamples. -/

/-- The synthetic success outcome the scenario runner pushes for step `i`. -/
def scenSuccessOutcome (ts : String) (i : Nat) : StepOutcome :=
  { step := "step_" ++ toString i, status := "success", timestamp := ts }

/-- The failure outcome the scenario runner pushes when step `i` throws `m`. -/
def scenFailedOutcome (ts : String) (i : Nat) (m : String) : StepOutcome :=
  { step := "step_" ++ toString i, status := "failed", errMsg := some m, timestamp := ts }

/-- The error record the scenario runner appends when step `i` throws `m`. -/
def scenErrorRecord (ts : String) (i : Nat) (m : String) : ErrorRecord :=
  { step := "step_" ++ toString i, error := m, timestamp := ts }

/-- The outcome `_teardown` always appends. -/
def teardownOutcome (ts : String) : StepOutcome :=
  { step := "teardown", status := "completed", timestamp := ts }

/-- Success outcomes for `n` consecutive scenario steps starting at `idx`. -/
def successRun (ts : String) : Nat → Nat → List StepOutcome
  | _, 0 => []
  | idx, n + 1 => scenSuccessOutcome ts idx :: successRun ts (idx + 1) n

/-- The indices `idx, idx+1, ..., idx+n-1`. -/
def traceRange : Nat → Nat → List Nat
  | _, 0 => []
  | idx, n + 1 => idx :: traceRange (idx + 1) n

/-- A fully working capability stack for the end-to-end scenario:
data fetch returns a base url, browser control hands out handles 1, 2, 3,
the page title resolves to "Example Domain", closing succeeds. -/
def capE2E : Capabilities :=
  { getTestData := .ok [("baseUrl", "https://example.com")]
    launchBrowser := .ok 1
    createContext := .ok 2
    createPage := .ok 3
    pageGoto := fun _ => .ok ()
    pageScreenshot := .ok ()
    pageTitle := .ok "Example Domain"
    browserClose := fun _ => .ok () }

/-- The same stack with a browser launch that always fails. -/
def capBrowserFail : Capabilities :=
  { capE2E with launchBrowser := .error "browser launch failed" }

/-- The same stack with a browser close that throws for handle 7 only. -/
def capCloseThrow : Capabilities :=
  { capE2E with browserClose := fun b => if b = 7 then .error "close failed" else .ok () }

/-- The same stack with a data fetch that always fails. -/
def capDataFail : Capabilities :=
  { capE2E with getTestData := .error "no data" }

/-- The same stack with a page navigation that always fails. -/
def capPageFail : Capabilities :=
  { capE2E with pageGoto := fun _ => .error "goto failed" }

/-- A scenario step whose delta clobbers the `testResults` key. -/
def clobberStep : ScenStep :=
  fun _ _ => .ok { testResults := some [{ step := "junk", status := "bogus", timestamp := "x" }] }

/-- A scenario step that always throws. -/
def boomStep : ScenStep :=
  fun _ _ => .error "boom"

/-- A scenario step whose delta only adds an unrelated key. -/
def benignStep : ScenStep :=
  fun _ _ => .ok { other := [("navigated", "true")] }

/-- A scenario step in the style of the example spec's
`async (state, { page }) => ...`: it needs the external page handle and
throws the destructuring TypeError when invoked without one. -/
def pageStep : ScenStep :=
  fun _ handles =>
    match handles with
    | some _ => .ok { other := [("navigationComplete", "true")] }
    | none => .error "Cannot destructure property page of undefined"

/-- An underlying fetch that always succeeds. -/
def mcpOk : String → Except String (List (String × String)) :=
  fun _ => .ok [("baseUrl", "https://example.com")]

/-- An underlying fetch that always fails. -/
def mcpFail : String → Except String (List (String × String)) :=
  fun _ => .error "network down"

/-- The final state of an error-path run: from the state `s1` reached
when a failure surfaced, apply `handleError` and then `teardown`. -/
def errorPathFinal (cap : Capabilities) (ts : String) (s1 : WState) : WState :=
  applyDelta (applyDelta s1 (handleErrorNode ts s1))
    (teardownNode cap ts (applyDelta s1 (handleErrorNode ts s1))).1

/-- The final state of a success-path run: from the state produced by
`executeTest`'s delta, apply `teardown`. -/
def teardownFinal (cap : Capabilities) (ts : String) (s3 : WState) : WState :=
  applyDelta s3 (teardownNode cap ts s3).1

/-! General lemmas about the embedding. -/

theorem objOverlay_nil_left (u : List (String × α)) : objOverlay [] u = u := by
  simp [objOverlay, List.lookup]

theorem objOverlay_nil_right (l : List (String × α)) : objOverlay l [] = l := by
  simp [objOverlay, List.lookup]

theorem lookup_append_cases (xs ys : List (String × α)) (k : String) :
    (xs ++ ys).lookup k = match xs.lookup k with
      | some v => some v
      | none => ys.lookup k := by
  induction xs with
  | nil => rfl
  | cons hd tl ih =>
      rcases hd with ⟨a, b⟩
      by_cases h : k = a
      · simp [List.lookup, h]
      · have hb : (k == a) = false := by simp [h]
        simp [List.lookup, hb, ih]

theorem lookup_map_overlay (l u : List (String × α)) (k : String) :
    (l.map fun p => match u.lookup p.1 with
       | some v => (p.1, v)
       | none => p).lookup k =
      (l.lookup k).map fun b =>
        match u.lookup k with
        | some v => v
        | none => b := by
  induction l with
  | nil => rfl
  | cons hd tl ih =>
      rcases hd with ⟨a, b⟩
      by_cases h : k = a
      · subst h
        cases hu : u.lookup k <;> simp [List.lookup, hu]
      · have hb : (k == a) = false := by simp [h]
        cases hu : u.lookup a <;> simp [List.lookup, hb, ih, hu]

theorem objOverlay_lookup_single (l : List (String × α)) (k : String) (v : α) :
    (objOverlay l [(k, v)]).lookup k = some v := by
  unfold objOverlay
  rw [lookup_append_cases, lookup_map_overlay]
  cases hl : l.lookup k
  · simp [List.filter, List.lookup, hl]
  · simp [List.lookup, hl]

/-- C8: merging the sequence channels `testResults` and `errors` is the
existing sequence concatenated with the delta sequence, preserving
order, with no deduplication; merging `[a]` and then `[b]` into an empty
state yields `[a, b]`, never `[b, a]` and never `[a]`, and a record
merged twice appears twice. -/
theorem state_sequence_merge_append_only (s : WState) (a b : StepOutcome)
    (ea eb : ErrorRecord) (hab : a ≠ b) :
    (∀ d : WDelta, (applyDelta s d).testResults = s.testResults ++ d.testResults.getD [] ∧
      (applyDelta s d).errors = s.errors ++ d.errors.getD []) ∧
    (applyDelta (applyDelta constructorState { testResults := some [a], errors := some [ea] })
        { testResults := some [b], errors := some [eb] }).testResults = [a, b] ∧
    (applyDelta (applyDelta constructorState { testResults := some [a], errors := some [ea] })
        { testResults := some [b], errors := some [eb] }).errors = [ea, eb] ∧
    ([a, b] : List StepOutcome) ≠ [b, a] ∧ ([a, b] : List StepOutcome) ≠ [a] ∧
    (applyDelta (applyDelta constructorState { testResults := some [a] })
        { testResults := some [a] }).testResults = [a, a] := by
  refine ⟨fun d => ⟨rfl, rfl⟩, ?_, ?_, ?_, ?_, ?_⟩
  · simp [applyDelta, seqReducer, constructorState]
  · simp [applyDelta, seqReducer, constructorState]
  · simp only [ne_eq, List.cons.injEq, and_true]
    intro h
    exact hab h.1
  · simp
  · simp [applyDelta, seqReducer, constructorState]

/-- Witness for C8 at two concrete, distinct outcome records. -/
theorem state_sequence_merge_append_only_witness :
    ([{ step := "a", status := "success", timestamp := "" },
      { step := "b", status := "failed", timestamp := "" }] : List StepOutcome) ≠
      [{ step := "b", status := "failed", timestamp := "" },
       { step := "a", status := "success", timestamp := "" }] :=
  (state_sequence_merge_append_only constructorState
    { step := "a", status := "success", timestamp := "" }
    { step := "b", status := "failed", timestamp := "" }
    { step := "a", error := "e", timestamp := "" }
    { step := "b", error := "e", timestamp := "" }
    (by decide)).2.2.2.1

/-- C10: with caching enabled and no refresh, a cached key is answered
from the cache without invoking the underlying fetch; and when the
underlying fetch fails, `getTestData` raises
`Test data not found for key: <key>` and leaves the cache unchanged. -/
theorem getTestData_cache_hit_and_fetch_failure
    (mcp mcpBad : String → Except String (List (String × String)))
    (cacheMap cmMiss : List (String × List (String × String)))
    (key : String) (data : List (String × String)) (e : String)
    (hcached : cacheMap.lookup key = some data)
    (hfail : mcpBad key = .error e) (hmiss : cmMiss.lookup key = none) :
    getTestData mcp cacheMap key true false =
      { result := .ok data, cacheAfter := cacheMap, fetchCalled := false } ∧
    ∀ c r : Bool, getTestData mcpBad cmMiss key c r =
      { result := .error ("Test data not found for key: " ++ key)
        cacheAfter := cmMiss, fetchCalled := true } := by
  constructor
  · simp [getTestData, hcached]
  · intro c r
    cases c <;> cases r <;> simp [getTestData, hmiss, hfail]

/-- Witness for C10: a concrete cache hit and a concrete fetch failure. -/
theorem getTestData_cache_hit_and_fetch_failure_witness :
    getTestData mcpOk [("test-config", [("baseUrl", "https://example.com")])]
        "test-config" true false =
      { result := .ok [("baseUrl", "https://example.com")]
        cacheAfter := [("test-config", [("baseUrl", "https://example.com")])]
        fetchCalled := false } ∧
    getTestData mcpFail [] "test-config" true false =
      { result := .error ("Test data not found for key: " ++ "test-config")
        cacheAfter := [], fetchCalled := true } := by
  have h := getTestData_cache_hit_and_fetch_failure mcpOk mcpFail
    [("test-config", [("baseUrl", "https://example.com")])] []
    "test-config" [("baseUrl", "https://example.com")] "network down"
    (by decide) rfl rfl
  exact ⟨h.1, h.2 true false⟩

theorem closeContexts_calls (close : Nat → Except String Unit)
    (l : List (String × BrowserCtx)) :
    (closeContexts close l).1 = l.filterMap fun p => p.2.browser := by
  induction l with
  | nil => rfl
  | cons hd tl ih =>
      rcases hd with ⟨n, c⟩
      cases hb : c.browser with
      | none => simp [closeContexts, hb, ih]
      | some b => cases hc : close b <;> simp [closeContexts, hb, hc, ih]

theorem setupBrowserNode_no_error_shape (cap : Capabilities) (ts : String) (s : WState)
    (h : (setupBrowserNode cap ts s).errors = none) :
    ∃ b c p, (setupBrowserNode cap ts s).browserContexts =
      some [("default", { browser := some b, context := c, page := p })] := by
  cases hacq : acquireBrowser cap with
  | error e => simp [setupBrowserNode, hacq] at h
  | ok t =>
      rcases t with ⟨b, c, p⟩
      exact ⟨b, c, p, by simp [setupBrowserNode, hacq]⟩

theorem executeTestNode_ok_of_default (cap : Capabilities) (ts : String) (s : WState)
    (h : ∃ c, s.browserContexts.lookup "default" = some c) :
    ∃ d, executeTestNode cap ts s = .ok d := by
  obtain ⟨c, hc⟩ := h
  simp only [executeTestNode, hc]
  cases hbody : pageRun cap (jsOrStr (List.lookup "baseUrl" s.testData) "https://example.com") with
  | ok title => exact ⟨_, rfl⟩
  | error e => exact ⟨_, rfl⟩

theorem runGraph_total (cap : Capabilities) (ts : String) (init : WState) :
    ∃ s trace, runGraph cap ts init = .ok (s, trace) := by
  unfold runGraph
  by_cases h1 : (setupTestDataNode cap ts init).errors.isSome
  · exact ⟨_, _, by simp [h1]; rfl⟩
  · set s1 := applyDelta init (setupTestDataNode cap ts init) with hs1
    by_cases h2 : (setupBrowserNode cap ts s1).errors.isSome
    · exact ⟨_, _, by simp [h1, h2]; rfl⟩
    · have hshape := setupBrowserNode_no_error_shape cap ts s1
        (Option.not_isSome_iff_eq_none.mp h2)
      obtain ⟨b, c, p, hbc⟩ := hshape
      have hlook : (applyDelta s1 (setupBrowserNode cap ts s1)).browserContexts.lookup
          "default" = some { browser := some b, context := c, page := p } := by
        simp [applyDelta, mapReducer, hbc, objOverlay_lookup_single]
      obtain ⟨d3, hd3⟩ := executeTestNode_ok_of_default cap ts
        (applyDelta s1 (setupBrowserNode cap ts s1)) ⟨_, hlook⟩
      by_cases h3 : d3.errors.isSome
      · exact ⟨_, _, by simp [h1, h2, hd3, h3, bind, Except.bind]; rfl⟩
      · exact ⟨_, _, by simp [h1, h2, hd3, h3, bind, Except.bind]; rfl⟩

/-- C7: the teardown node invokes `close()` on the browser handle of
every recorded context no matter how `close()` behaves (a throwing close
is swallowed and never prevents closing the remaining contexts), always
appends a `completed` outcome, and `runTest` itself never raises, in
particular not because a browser close threw. Routing of the graph
engine is modelled from the spec. -/
theorem teardown_closes_every_context (cap : Capabilities) (ts : String) (state : WState)
    (opts : List (String × String)) (h : state.browserContexts ≠ []) :
    (teardownNode cap ts state).2 = state.browserContexts.filterMap (fun p => p.2.browser) ∧
    (teardownNode cap ts state).1.testResults =
      some (state.testResults ++ [teardownOutcome ts]) ∧
    ∃ s, runTest cap ts opts = (.ok s, []) := by
  refine ⟨closeContexts_calls _ _, rfl, ?_⟩
  obtain ⟨s, trace, hrun⟩ := runGraph_total cap ts
    { constructorState with testData := objOverlay [] opts }
  exact ⟨s, by simp [runTest, runTestWith, hrun, Except.map]⟩

/-- Witness for C7: two recorded contexts with handles 7 and 8 under a
close action that throws for handle 7; both handles are still closed and
`runTest` returns without raising. -/
theorem teardown_closes_every_context_witness :
    (teardownNode capCloseThrow "t"
      { testResults := [], testData := []
        browserContexts := [("default", { browser := some 7, context := 2, page := 3 }),
          ("second", { browser := some 8, context := 4, page := 5 })]
        errors := [] }).2 = [7, 8] ∧
    ∃ s, runTest capCloseThrow "t" [] = (.ok s, []) := by
  have h := teardown_closes_every_context capCloseThrow "t"
    { testResults := [], testData := []
      browserContexts := [("default", { browser := some 7, context := 2, page := 3 }),
        ("second", { browser := some 8, context := 4, page := 5 })]
      errors := [] } [] (by decide)
  exact ⟨h.1.trans (by decide), h.2.2⟩

theorem teardown_outcome_mem (cap : Capabilities) (ts : String) (s : WState) :
    teardownOutcome ts ∈ (applyDelta s (teardownNode cap ts s).1).testResults := by
  simp [applyDelta, seqReducer, teardownNode, teardownOutcome]

/-- C2: with the graph routing modelled from the spec, a failure
surfacing from any of the three nodes `setupTestData`, `setupBrowser`
or `executeTest` routes execution to `handleError` and from there
unconditionally to `teardown`, and the final state always contains a
`completed` outcome for the teardown node (in particular a run whose
browser setup always fails still reaches teardown); a fully successful
run executes exactly the success path and never passes through
`handleError`. -/
theorem failure_routes_to_handleError_then_teardown
    (cap : Capabilities) (ts : String) (init : WState) :
    (∀ e, cap.getTestData = .error e →
      ∃ s, runGraph cap ts init =
          .ok (s, ["setupTestData", "handleError", "teardown"]) ∧
        ∃ o ∈ s.testResults, o.step = "teardown" ∧ o.status = "completed") ∧
    (∀ d0 m, cap.getTestData = .ok d0 → acquireBrowser cap = .error m →
      ∃ s, runGraph cap ts init =
          .ok (s, ["setupTestData", "setupBrowser", "handleError", "teardown"]) ∧
        ∃ o ∈ s.testResults, o.step = "teardown" ∧ o.status = "completed") ∧
    (∀ d0 b c p m, cap.getTestData = .ok d0 → acquireBrowser cap = .ok (b, c, p) →
      (∀ u, pageRun cap u = .error m) →
      ∃ s, runGraph cap ts init =
          .ok (s, ["setupTestData", "setupBrowser", "executeTest", "handleError", "teardown"]) ∧
        ∃ o ∈ s.testResults, o.step = "teardown" ∧ o.status = "completed") ∧
    (∀ d0 b c p ti, cap.getTestData = .ok d0 → acquireBrowser cap = .ok (b, c, p) →
      (∀ u, pageRun cap u = .ok ti) →
      ∃ s, runGraph cap ts init =
          .ok (s, ["setupTestData", "setupBrowser", "executeTest", "teardown"]) ∧
        ∃ o ∈ s.testResults, o.step = "teardown" ∧ o.status = "completed") := by
  refine ⟨?_, ?_, ?_, ?_⟩
  · intro e hdata
    have hcond : (setupTestDataNode cap ts init).errors.isSome = true := by
      simp [setupTestDataNode, hdata]
    have hrun : runGraph cap ts init = .ok
        (errorPathFinal cap ts (applyDelta init (setupTestDataNode cap ts init)),
         ["setupTestData", "handleError", "teardown"]) := by
      unfold runGraph
      rw [if_pos hcond]
      rfl
    exact ⟨_, hrun, ⟨teardownOutcome ts, teardown_outcome_mem _ _ _, rfl, rfl⟩⟩
  · intro d0 m hdata hacq
    have hcond1 : ¬(setupTestDataNode cap ts init).errors.isSome = true := by
      simp [setupTestDataNode, hdata]
    have hcond2 : (setupBrowserNode cap ts
        (applyDelta init (setupTestDataNode cap ts init))).errors.isSome = true := by
      simp [setupBrowserNode, hacq]
    have hrun : runGraph cap ts init = .ok
        (errorPathFinal cap ts
          (applyDelta (applyDelta init (setupTestDataNode cap ts init))
            (setupBrowserNode cap ts (applyDelta init (setupTestDataNode cap ts init)))),
         ["setupTestData", "setupBrowser", "handleError", "teardown"]) := by
      unfold runGraph
      rw [if_neg hcond1, if_pos hcond2]
      rfl
    exact ⟨_, hrun, ⟨teardownOutcome ts, teardown_outcome_mem _ _ _, rfl, rfl⟩⟩
  · intro d0 b c p m hdata hacq hpage
    have hcond1 : ¬(setupTestDataNode cap ts init).errors.isSome = true := by
      simp [setupTestDataNode, hdata]
    have hd2 : setupBrowserNode cap ts (applyDelta init (setupTestDataNode cap ts init)) =
        { browserContexts := some [("default", { browser := some b, context := c, page := p })]
          testResults := some ((applyDelta init (setupTestDataNode cap ts init)).testResults ++
            [{ step := "setupBrowser", status := "success", timestamp := ts }]) } := by
      simp [setupBrowserNode, hacq]
    have hcond2 : ¬(setupBrowserNode cap ts
        (applyDelta init (setupTestDataNode cap ts init))).errors.isSome = true := by
      rw [hd2]
      simp
    have hlook : List.lookup "default"
        (applyDelta (applyDelta init (setupTestDataNode cap ts init))
          (setupBrowserNode cap ts
            (applyDelta init (setupTestDataNode cap ts init)))).browserContexts =
        some { browser := some b, context := c, page := p } := by
      rw [hd2]
      simp only [applyDelta, mapReducer, Option.getD_some]
      exact objOverlay_lookup_single _ _ _
    have hd3 : executeTestNode cap ts
        (applyDelta (applyDelta init (setupTestDataNode cap ts init))
          (setupBrowserNode cap ts (applyDelta init (setupTestDataNode cap ts init)))) =
        .ok { testResults := some (applyDelta (applyDelta init (setupTestDataNode cap ts init))
                (setupBrowserNode cap ts
                  (applyDelta init (setupTestDataNode cap ts init)))).testResults
              testData := some (applyDelta (applyDelta init (setupTestDataNode cap ts init))
                (setupBrowserNode cap ts
                  (applyDelta init (setupTestDataNode cap ts init)))).testData
              browserContexts := some (applyDelta
                (applyDelta init (setupTestDataNode cap ts init))
                (setupBrowserNode cap ts
                  (applyDelta init (setupTestDataNode cap ts init)))).browserContexts
              errors := some ((applyDelta (applyDelta init (setupTestDataNode cap ts init))
                (setupBrowserNode cap ts
                  (applyDelta init (setupTestDataNode cap ts init)))).errors ++
                [{ step := "executeTest", error := m, timestamp := ts }]) } := by
      simp only [executeTestNode, hlook]
      rw [hpage]
    have hrun : runGraph cap ts init = .ok
        (errorPathFinal cap ts
          (applyDelta (applyDelta (applyDelta init (setupTestDataNode cap ts init))
              (setupBrowserNode cap ts (applyDelta init (setupTestDataNode cap ts init))))
            { testResults := some (applyDelta (applyDelta init (setupTestDataNode cap ts init))
                (setupBrowserNode cap ts
                  (applyDelta init (setupTestDataNode cap ts init)))).testResults
              testData := some (applyDelta (applyDelta init (setupTestDataNode cap ts init))
                (setupBrowserNode cap ts
                  (applyDelta init (setupTestDataNode cap ts init)))).testData
              browserContexts := some (applyDelta
                (applyDelta init (setupTestDataNode cap ts init))
                (setupBrowserNode cap ts
                  (applyDelta init (setupTestDataNode cap ts init)))).browserContexts
              errors := some ((applyDelta (applyDelta init (setupTestDataNode cap ts init))
                (setupBrowserNode cap ts
                  (applyDelta init (setupTestDataNode cap ts init)))).errors ++
                [{ step := "executeTest", error := m, timestamp := ts }]) }),
         ["setupTestData", "setupBrowser", "executeTest", "handleError", "teardown"]) := by
      unfold runGraph
      rw [if_neg hcond1, if_neg hcond2, hd3]
      simp only [bind, Except.bind]
      rw [if_pos (by simp)]
      rfl
    exact ⟨_, hrun, ⟨teardownOutcome ts, teardown_outcome_mem _ _ _, rfl, rfl⟩⟩
  · intro d0 b c p ti hdata hacq hpage
    have hcond1 : ¬(setupTestDataNode cap ts init).errors.isSome = true := by
      simp [setupTestDataNode, hdata]
    have hd2 : setupBrowserNode cap ts (applyDelta init (setupTestDataNode cap ts init)) =
        { browserContexts := some [("default", { browser := some b, context := c, page := p })]
          testResults := some ((applyDelta init (setupTestDataNode cap ts init)).testResults ++
            [{ step := "setupBrowser", status := "success", timestamp := ts }]) } := by
      simp [setupBrowserNode, hacq]
    have hcond2 : ¬(setupBrowserNode cap ts
        (applyDelta init (setupTestDataNode cap ts init))).errors.isSome = true := by
      rw [hd2]
      simp
    have hlook : List.lookup "default"
        (applyDelta (applyDelta init (setupTestDataNode cap ts init))
          (setupBrowserNode cap ts
            (applyDelta init (setupTestDataNode cap ts init)))).browserContexts =
        some { browser := some b, context := c, page := p } := by
      rw [hd2]
      simp only [applyDelta, mapReducer, Option.getD_some]
      exact objOverlay_lookup_single _ _ _
    have hd3 : executeTestNode cap ts
        (applyDelta (applyDelta init (setupTestDataNode cap ts init))
          (setupBrowserNode cap ts (applyDelta init (setupTestDataNode cap ts init)))) =
        .ok { testResults := some ((applyDelta (applyDelta init (setupTestDataNode cap ts init))
          (setupBrowserNode cap ts (applyDelta init (setupTestDataNode cap ts init)))).testResults ++
            [{ step := "executeTest"
               status := if jsIncludes ti "Example" then "success" else "failed"
               details := some ti, timestamp := ts }]) } := by
      simp only [executeTestNode, hlook]
      rw [hpage]
    have hrun : runGraph cap ts init = .ok
        (teardownFinal cap ts
          (applyDelta (applyDelta (applyDelta init (setupTestDataNode cap ts init))
              (setupBrowserNode cap ts (applyDelta init (setupTestDataNode cap ts init))))
            { testResults := some ((applyDelta
                (applyDelta init (setupTestDataNode cap ts init))
                (setupBrowserNode cap ts
                  (applyDelta init (setupTestDataNode cap ts init)))).testResults ++
                [{ step := "executeTest"
                   status := if jsIncludes ti "Example" then "success" else "failed"
                   details := some ti, timestamp := ts }]) }),
         ["setupTestData", "setupBrowser", "executeTest", "teardown"]) := by
      unfold runGraph
      rw [if_neg hcond1, if_neg hcond2, hd3]
      simp only [bind, Except.bind]
      rw [if_neg (by simp)]
      rfl
    exact ⟨_, hrun, ⟨teardownOutcome ts, teardown_outcome_mem _ _ _, rfl, rfl⟩⟩

/-- Witness for C2: concrete stacks exercising each failure source — a
failing data fetch, a failing browser launch, a failing page
navigation — and the fully working stack. -/
theorem failure_routes_to_handleError_then_teardown_witness :
    (∃ s, runGraph capDataFail "t" constructorState =
        .ok (s, ["setupTestData", "handleError", "teardown"]) ∧
      ∃ o ∈ s.testResults, o.step = "teardown" ∧ o.status = "completed") ∧
    (∃ s, runGraph capBrowserFail "t" constructorState =
        .ok (s, ["setupTestData", "setupBrowser", "handleError", "teardown"]) ∧
      ∃ o ∈ s.testResults, o.step = "teardown" ∧ o.status = "completed") ∧
    (∃ s, runGraph capPageFail "t" constructorState =
        .ok (s, ["setupTestData", "setupBrowser", "executeTest", "handleError", "teardown"]) ∧
      ∃ o ∈ s.testResults, o.step = "teardown" ∧ o.status = "completed") ∧
    (∃ s, runGraph capE2E "t" constructorState =
        .ok (s, ["setupTestData", "setupBrowser", "executeTest", "teardown"]) ∧
      ∃ o ∈ s.testResults, o.step = "teardown" ∧ o.status = "completed") :=
  ⟨(failure_routes_to_handleError_then_teardown capDataFail "t" constructorState).1
      "no data" rfl,
   (failure_routes_to_handleError_then_teardown capBrowserFail "t" constructorState).2.1
      [("baseUrl", "https://example.com")] "browser launch failed" rfl rfl,
   (failure_routes_to_handleError_then_teardown capPageFail "t" constructorState).2.2.1
      [("baseUrl", "https://example.com")] 1 2 3 "goto failed" rfl rfl (fun _ => rfl),
   (failure_routes_to_handleError_then_teardown capE2E "t" constructorState).2.2.2
      [("baseUrl", "https://example.com")] 1 2 3 "Example Domain" rfl rfl (fun _ => rfl)⟩

/-- C1 (counterexample): in the end-to-end success scenario (data fetch
returns the base url, browser control works, the title resolves to
"Example Domain"), the final state does NOT have 4 testResults entries
all of status `success`: it has 15 entries (the nodes re-include the
accumulated results in their deltas and the reducer appends) and the
teardown entry's status is `completed`, so `every(status === 'success')`
is false; `errors` is empty as claimed. -/
theorem runTest_e2e_claim_false :
    ∃ s, (runTest capE2E "t" []).1 = .ok s ∧ s.testResults.length = 15 ∧
      s.testResults.length ≠ 4 ∧
      (s.testResults.all fun o => o.status == "success") = false ∧
      s.errors = [] := by
  refine ⟨_, rfl, ?_, ?_, ?_, ?_⟩ <;> decide

/-- C1 (amended): the same end-to-end run returns a state with empty
`errors` whose `testResults` lists, with duplicated prefixes, `success`
outcomes for `setupTestData`, `setupBrowser` and `executeTest` and one
final `completed` outcome for `teardown` — 15 entries in total. -/
theorem runTest_e2e_amended :
    ∃ s, (runTest capE2E "t" []).1 = .ok s ∧ s.errors = [] ∧
      (s.testResults.map fun o => (o.step, o.status)) =
        [("setupTestData", "success"), ("setupTestData", "success"), ("setupBrowser", "success"),
         ("setupTestData", "success"), ("setupTestData", "success"), ("setupBrowser", "success"),
         ("executeTest", "success"),
         ("setupTestData", "success"), ("setupTestData", "success"), ("setupBrowser", "success"),
         ("setupTestData", "success"), ("setupTestData", "success"), ("setupBrowser", "success"),
         ("executeTest", "success"), ("teardown", "completed")] := by
  refine ⟨_, rfl, ?_, ?_⟩ <;> decide

/-- C3 (code evaluation at the failing input): the graph wires the
unconditional edge `setupBrowser -> executeTest`, so after a failed
browser setup the state reaching `executeTest` records no `default`
context; because `const { page } = browserContexts.default` sits before
the `try` block, the node then throws across the node boundary instead
of converting the failure into an `errors` delta. -/
theorem executeTest_throws_across_node_boundary :
    executeTestNode capBrowserFail "t"
      (applyDelta (applyDelta constructorState
          (setupTestDataNode capBrowserFail "t" constructorState))
        (setupBrowserNode capBrowserFail "t"
          (applyDelta constructorState (setupTestDataNode capBrowserFail "t" constructorState)))) =
      .error "TypeError: Cannot destructure property of undefined" := by
  rfl

/-- C4 (code evaluation at the failing input): a run under the working
capability stack records browser handle 1 under `browserContexts.default`
after the first two nodes, yet when an engine fault escapes the graph,
`runTest`'s catch tears down `this.state` — the constructor state, whose
`browserContexts` is empty — so no recorded handle is closed, and the
same error is re-raised. -/
theorem runTest_forced_teardown_closes_nothing :
    (applyDelta (applyDelta constructorState (setupTestDataNode capE2E "t" constructorState))
      (setupBrowserNode capE2E "t"
        (applyDelta constructorState (setupTestDataNode capE2E "t" constructorState)))).browserContexts =
      [("default", { browser := some 1, context := 2, page := 3 })] ∧
    runTestWith capE2E "t" (.error "engine fault") = (.error "engine fault", []) := by
  exact ⟨rfl, rfl⟩

theorem successRun_length (ts : String) : ∀ idx n, (successRun ts idx n).length = n := by
  intro idx n
  induction n generalizing idx with
  | zero => rfl
  | succ n ih => simp [successRun, ih]

theorem runStepsFrom_first_failure (ts : String) (post : List ScenStep) (failStep : ScenStep)
    (hfail : ∀ s, ∃ m, failStep s none = .error m) (pre : List ScenStep) :
    (∀ st ∈ pre, ∀ s, ∃ d, st s none = .ok d ∧ d.testResults = none ∧ d.errors = none) →
    ∀ (idx : Nat) (cur : SObj) (results : List StepOutcome), ∃ m,
      runStepsFrom ts idx cur results (pre ++ failStep :: post) =
        ({ testResults := some (cur.testResults.getD [] ++ results ++
             successRun ts idx pre.length ++ [scenFailedOutcome ts (idx + pre.length) m])
           errors := some (cur.errors.getD [] ++ [scenErrorRecord ts (idx + pre.length) m])
           other := (runStepsFrom ts idx cur results pre).1.other },
         traceRange idx (pre.length + 1)) := by
  induction pre with
  | nil =>
      intro _ idx cur results
      obtain ⟨m, hm⟩ := hfail cur
      refine ⟨m, ?_⟩
      simp only [List.nil_append, List.length_nil, runStepsFrom, hm, successRun,
        traceRange, Nat.add_zero, List.append_nil, scenFailedOutcome, scenErrorRecord]
  | cons st pre ih =>
      intro hpre idx cur results
      obtain ⟨d, hd, hdr, hde⟩ := hpre st (List.mem_cons_self st pre) cur
      obtain ⟨m, hnext⟩ := ih (fun st2 h2 => hpre st2 (List.mem_cons_of_mem st h2))
        (idx + 1) (spreadMerge cur d) (results ++ [scenSuccessOutcome ts idx])
      refine ⟨m, ?_⟩
      have harith : idx + 1 + pre.length = idx + (pre.length + 1) := by omega
      rw [harith] at hnext
      have hmerge_tr : (spreadMerge cur d).testResults = cur.testResults := by
        simp [spreadMerge, hdr]
      have hmerge_er : (spreadMerge cur d).errors = cur.errors := by
        simp [spreadMerge, hde]
      rw [hmerge_tr, hmerge_er] at hnext
      have hstep : runStepsFrom ts idx cur results ((st :: pre) ++ failStep :: post) =
          ((runStepsFrom ts (idx + 1) (spreadMerge cur d)
              (results ++ [scenSuccessOutcome ts idx]) (pre ++ failStep :: post)).1,
           idx :: (runStepsFrom ts (idx + 1) (spreadMerge cur d)
              (results ++ [scenSuccessOutcome ts idx]) (pre ++ failStep :: post)).2) := by
        simp only [List.cons_append, runStepsFrom, hd, scenSuccessOutcome]
        rfl
      have hstep2 : runStepsFrom ts idx cur results (st :: pre) =
          ((runStepsFrom ts (idx + 1) (spreadMerge cur d)
              (results ++ [scenSuccessOutcome ts idx]) pre).1,
           idx :: (runStepsFrom ts (idx + 1) (spreadMerge cur d)
              (results ++ [scenSuccessOutcome ts idx]) pre).2) := by
        simp only [runStepsFrom, hd, scenSuccessOutcome]
      rw [hstep, hstep2, hnext]
      simp only [List.length_cons, successRun, traceRange]
      simp [List.append_assoc]

/-- C5 (counterexample): a first step whose delta carries a
`testResults` key clobbers the accumulated sequence (top-level spread,
not a reducer), so with steps `[clobberStep, boomStep]` the first
failure is at step 2 (k = 2) — both steps were invoked — yet the
returned `testResults` has 3 entries, not k = 2. -/
theorem scenario_first_failure_claim_false :
    (createTestScenario "t" [clobberStep, boomStep] {} none).2 = [0, 1] ∧
    ((createTestScenario "t" [clobberStep, boomStep] {} none).1.testResults.getD []).length = 3 ∧
    ((createTestScenario "t" [clobberStep, boomStep] {} none).1.testResults.getD []).length ≠ 2 := by
  refine ⟨rfl, rfl, by decide⟩

/-- C5 (amended): provided every step before the failing one returns a
delta that contains neither the `testResults` nor the `errors` key, a
first failure at step k = pre.length + 1 (1-indexed) returns a state
whose `testResults` has exactly k entries, whose `errors` is exactly one
record tagged `step_(k-1)`, whose other keys are those accumulated by
the successful prefix (partial state preserved), and the invoked indices
are exactly `0 .. k-1` — steps after the failure never run. -/
theorem scenario_first_failure (ts : String) (pre post : List ScenStep) (failStep : ScenStep)
    (s0 : SObj) (ch : Option Nat)
    (h0r : s0.testResults.getD [] = []) (h0e : s0.errors.getD [] = [])
    (hpre : ∀ st ∈ pre, ∀ s, ∃ d, st s none = .ok d ∧
      d.testResults = none ∧ d.errors = none)
    (hfail : ∀ s, ∃ m, failStep s none = .error m) :
    ∃ m,
      createTestScenario ts (pre ++ failStep :: post) s0 ch =
        ({ testResults := some (successRun ts 0 pre.length ++
             [scenFailedOutcome ts pre.length m])
           errors := some [scenErrorRecord ts pre.length m]
           other := (createTestScenario ts pre s0 ch).1.other },
         traceRange 0 (pre.length + 1)) ∧
      (successRun ts 0 pre.length ++ [scenFailedOutcome ts pre.length m]).length =
        pre.length + 1 := by
  obtain ⟨m, hrun⟩ := runStepsFrom_first_failure ts post failStep hfail pre hpre 0 s0 []
  refine ⟨m, ?_, ?_⟩
  · simp only [createTestScenario, hrun, h0r, h0e, Nat.zero_add, List.append_nil,
      List.nil_append]
  · simp [successRun_length]

/-- Witness for C5: one benign prefix step, a throwing step, one step
after it. -/
theorem scenario_first_failure_witness :
    ∃ m,
      createTestScenario "t" ([benignStep] ++ boomStep :: [benignStep]) {} none =
        ({ testResults := some (successRun "t" 0 1 ++ [scenFailedOutcome "t" 1 m])
           errors := some [scenErrorRecord "t" 1 m]
           other := (createTestScenario "t" [benignStep] {} none).1.other },
         traceRange 0 2) ∧
      (successRun "t" 0 1 ++ [scenFailedOutcome "t" 1 m]).length = 2 :=
  scenario_first_failure "t" [benignStep] [benignStep] boomStep {} none rfl rfl
    (by
      intro st hst s
      rw [List.mem_singleton] at hst
      subst hst
      exact ⟨{ other := [("navigated", "true")] }, rfl, rfl, rfl⟩)
    (fun _ => ⟨"boom", rfl⟩)

theorem runStepsFrom_exception_surfaced (ts : String) (post : List ScenStep)
    (failStep : ScenStep) (hfail : ∀ s, ∃ m, failStep s none = .error m)
    (pre : List ScenStep) :
    (∀ st ∈ pre, ∀ s, ∃ d, st s none = .ok d) →
    ∀ (idx : Nat) (cur : SObj) (results : List StepOutcome), ∃ m,
      scenFailedOutcome ts (idx + pre.length) m ∈
        ((runStepsFrom ts idx cur results (pre ++ failStep :: post)).1.testResults.getD []) ∧
      scenErrorRecord ts (idx + pre.length) m ∈
        ((runStepsFrom ts idx cur results (pre ++ failStep :: post)).1.errors.getD []) := by
  induction pre with
  | nil =>
      intro _ idx cur results
      obtain ⟨m, hm⟩ := hfail cur
      refine ⟨m, ?_, ?_⟩ <;>
        simp [runStepsFrom, hm, scenFailedOutcome, scenErrorRecord]
  | cons st pre ih =>
      intro hpre idx cur results
      obtain ⟨d, hd⟩ := hpre st (List.mem_cons_self st pre) cur
      obtain ⟨m, hmem1, hmem2⟩ := ih (fun st2 h2 => hpre st2 (List.mem_cons_of_mem st h2))
        (idx + 1) (spreadMerge cur d) (results ++ [scenSuccessOutcome ts idx])
      have hstep : (runStepsFrom ts idx cur results ((st :: pre) ++ failStep :: post)).1 =
          (runStepsFrom ts (idx + 1) (spreadMerge cur d)
            (results ++ [scenSuccessOutcome ts idx]) (pre ++ failStep :: post)).1 := by
        simp only [List.cons_append, runStepsFrom, hd, scenSuccessOutcome]
        rfl
      have harith : idx + (st :: pre).length = idx + 1 + pre.length := by
        simp only [List.length_cons]
        omega
      rw [harith, hstep]
      exact ⟨m, hmem1, hmem2⟩

/-- C9: the callable returned by `createTestScenario` never raises (it
is a total function of the state), and an exception thrown by any step
is surfaced only as data: the returned state's `testResults` contains a
`failed` outcome for that step and its `errors` contains a matching
`ErrorRecord`. -/
theorem scenario_step_exception_surfaced_as_data (ts : String) (pre post : List ScenStep)
    (failStep : ScenStep) (s0 : SObj) (ch : Option Nat)
    (hpre : ∀ st ∈ pre, ∀ s, ∃ d, st s none = .ok d)
    (hfail : ∀ s, ∃ m, failStep s none = .error m) :
    ∃ m,
      scenFailedOutcome ts pre.length m ∈
        ((createTestScenario ts (pre ++ failStep :: post) s0 ch).1.testResults.getD []) ∧
      scenErrorRecord ts pre.length m ∈
        ((createTestScenario ts (pre ++ failStep :: post) s0 ch).1.errors.getD []) := by
  obtain ⟨m, h1, h2⟩ := runStepsFrom_exception_surfaced ts post failStep hfail pre hpre 0 s0 []
  rw [Nat.zero_add] at h1 h2
  exact ⟨m, h1, h2⟩

/-- Witness for C9 at concrete steps. -/
theorem scenario_step_exception_surfaced_as_data_witness :
    ∃ m,
      scenFailedOutcome "t" 1 m ∈
        ((createTestScenario "t" ([benignStep] ++ boomStep :: []) {} none).1.testResults.getD []) ∧
      scenErrorRecord "t" 1 m ∈
        ((createTestScenario "t" ([benignStep] ++ boomStep :: []) {} none).1.errors.getD []) :=
  scenario_step_exception_surfaced_as_data "t" [benignStep] [] boomStep {} none
    (by
      intro st hst s
      rw [List.mem_singleton] at hst
      subst hst
      exact ⟨_, rfl⟩)
    (fun _ => ⟨"boom", rfl⟩)

/-- C6 (code evaluation at the failing input): replaying the example
spec's usage — the caller invokes the scenario with a page handle and a
step written as `async (state, { page }) => ...` — the step succeeds
when actually given the handle, but the runner calls `step(currentState)`
with one argument, so the step receives nothing, throws the
destructuring TypeError, and the run ends with a non-empty error log
(the example's own `expect(result.errors).toHaveLength(0)` fails). -/
theorem scenario_drops_caller_handles :
    (∃ d, pageStep {} (some 7) = .ok d) ∧
    pageStep {} none = .error "Cannot destructure property page of undefined" ∧
    (createTestScenario "t" [pageStep] {} (some 7)).1.errors =
      some [scenErrorRecord "t" 0 "Cannot destructure property page of undefined"] ∧
    ((createTestScenario "t" [pageStep] {} (some 7)).1.errors.getD []).length ≠ 0 := by
  refine ⟨⟨_, rfl⟩, rfl, rfl, by decide⟩

end TestForge
